import Mathlib

/-!
Verification development for the satellite-location Flask handler
(`src/api/index.py`, route `/api/get-satellite-locations`).

The handler is embedded shallowly:
* JSON values are the inductive `Json`; Python floats are modelled as exact
  rationals (`ℚ`), with `float()` string conversion as a fallible parser.
* `datetime.strptime(s, "%Y%m%dT%H%M%SZ")` is modelled by `strptimeValid`,
  implementing CPython's `_strptime` regular expression for this format
  (case-insensitive literals, optional leading zeros for two-digit fields,
  backtracking alternative order) followed by the `datetime` constructor's
  range validation.  ASCII digits only.
* The HTTP layer is modelled by passing the would-be upstream fetch outcome
  (`FetchOutcome`) to the pure handler.
-/

namespace NasaSat

/-- JSON values as produced by `response.json()`.  Numbers are modelled as
exact rationals; objects are association lists with distinct keys. -/
inductive Json where
  | null : Json
  | bool : Bool → Json
  | num : ℚ → Json
  | str : String → Json
  | arr : List Json → Json
  | obj : List (String × Json) → Json

/-- Python truthiness of a JSON value (used by `if coordinates_block and ...`). -/
def Json.truthy : Json → Bool
  | .null => false
  | .bool b => b
  | .num q => decide (q ≠ 0)
  | .str s => decide (s ≠ "")
  | .arr xs => !xs.isEmpty
  | .obj fs => !fs.isEmpty

/-- ASCII digit test (model of the regex class `\d`, restricted to ASCII). -/
def isDigitChar (c : Char) : Bool := 48 ≤ c.toNat && c.toNat ≤ 57

/-- Numeric value of an ASCII digit character. -/
def dval (c : Char) : Nat := c.toNat - 48

/-- Digits accumulated into a natural number (most significant first). -/
def digitsToNat (ds : List Nat) : Nat := ds.foldl (fun a d => 10 * a + d) 0

/-- Take the maximal prefix of ASCII digits. -/
def takeDigits : List Char → List Nat × List Char
  | c :: cs =>
    if isDigitChar c then
      let p := takeDigits cs
      (dval c :: p.1, p.2)
    else ([], c :: cs)
  | [] => ([], [])

/-- Model of the Python builtin `float()` applied to a (whitespace-stripped)
character sequence, restricted to plain decimal literals: an optional sign
followed by digits and an optional fractional part.  Returns `none` exactly
when the builtin raises `ValueError` on such inputs. -/
def parseFloatCore (cs : List Char) : Option ℚ :=
  let sgn : ℚ × List Char :=
    match cs with
    | '-' :: r => (-1, r)
    | '+' :: r => (1, r)
    | _ => (1, cs)
  let ip := takeDigits sgn.2
  match ip.2 with
  | [] => if ip.1.isEmpty then none else some (sgn.1 * (digitsToNat ip.1 : ℚ))
  | '.' :: r =>
    let fp := takeDigits r
    if fp.2.isEmpty && !(ip.1.isEmpty && fp.1.isEmpty) then
      some (sgn.1 * ((digitsToNat ip.1 : ℚ) +
        (digitsToNat fp.1 : ℚ) / ((10 : ℚ) ^ fp.1.length)))
    else none
  | _ => none

/-- Whitespace characters stripped by `float()` (ASCII model). -/
def isSpaceChar (c : Char) : Bool :=
  c = ' ' || c = '\t' || c = '\n' || c = '\r' || c.toNat = 11 || c.toNat = 12

/-- Strip leading whitespace characters. -/
def dropLeadingSpace : List Char → List Char
  | c :: cs => if isSpaceChar c then dropLeadingSpace cs else c :: cs
  | [] => []

/-- `float(s)` for a string: Python strips surrounding whitespace first. -/
def parseFloatString (s : String) : Option ℚ :=
  parseFloatCore (dropLeadingSpace ((dropLeadingSpace s.toList.reverse).reverse))

/-- `float(x)` on an arbitrary JSON value: numbers and booleans convert,
numeric strings parse, everything else raises (`ValueError`/`TypeError`),
both of which the handler's inner `except` clause catches. -/
def pyFloat : Json → Option ℚ
  | .num q => some q
  | .bool b => some (if b then 1 else 0)
  | .str s => parseFloatString s
  | _ => none

/-! ### Model of `datetime.strptime(s, "%Y%m%dT%H%M%SZ")`

CPython compiles the format into the anchored regular expression
`(?P<Y>\d\d\d\d)(?P<m>1[0-2]|0[1-9]|[1-9])(?P<d>3[0-1]|[1-2]\d|0[1-9]|[1-9]| [1-9])T`
`(?P<H>2[0-3]|[0-1]\d|\d)(?P<M>[0-5]\d|\d)(?P<S>6[0-1]|[0-5]\d|\d)Z`
with `IGNORECASE`, requires the whole string to be consumed, and then feeds
the captured fields to the `datetime` constructor, which range-checks them.
Each `...Alts` function lists the candidate (value, remaining input) pairs of
one directive in the regex's alternative order; `firstSome` realizes the
backtracking search. -/

/-- Candidates for `%m` (`1[0-2]|0[1-9]|[1-9]`), in regex alternative order. -/
def monthAlts : List Char → List (Nat × List Char)
  | c1 :: c2 :: rest =>
    (if c1 = '1' && 48 ≤ c2.toNat && c2.toNat ≤ 50 then [(10 + dval c2, rest)] else []) ++
    (if c1 = '0' && 49 ≤ c2.toNat && c2.toNat ≤ 57 then [(dval c2, rest)] else []) ++
    (if 49 ≤ c1.toNat && c1.toNat ≤ 57 then [(dval c1, c2 :: rest)] else [])
  | [c1] => if 49 ≤ c1.toNat && c1.toNat ≤ 57 then [(dval c1, [])] else []
  | [] => []

/-- Candidates for `%d` (`3[0-1]|[1-2]\d|0[1-9]|[1-9]| [1-9]`; the final
alternative accepts a space-padded day). -/
def dayAlts : List Char → List (Nat × List Char)
  | c1 :: c2 :: rest =>
    (if c1 = '3' && (c2 = '0' || c2 = '1') then [(30 + dval c2, rest)] else []) ++
    (if (c1 = '1' || c1 = '2') && isDigitChar c2 then [(10 * dval c1 + dval c2, rest)] else []) ++
    (if c1 = '0' && 49 ≤ c2.toNat && c2.toNat ≤ 57 then [(dval c2, rest)] else []) ++
    (if 49 ≤ c1.toNat && c1.toNat ≤ 57 then [(dval c1, c2 :: rest)] else []) ++
    (if c1 = ' ' && 49 ≤ c2.toNat && c2.toNat ≤ 57 then [(dval c2, rest)] else [])
  | [c1] => if 49 ≤ c1.toNat && c1.toNat ≤ 57 then [(dval c1, [])] else []
  | [] => []

/-- Candidates for `%H` (`2[0-3]|[0-1]\d|\d`). -/
def hourAlts : List Char → List (Nat × List Char)
  | c1 :: c2 :: rest =>
    (if c1 = '2' && 48 ≤ c2.toNat && c2.toNat ≤ 51 then [(20 + dval c2, rest)] else []) ++
    (if (c1 = '0' || c1 = '1') && isDigitChar c2 then [(10 * dval c1 + dval c2, rest)] else []) ++
    (if isDigitChar c1 then [(dval c1, c2 :: rest)] else [])
  | [c1] => if isDigitChar c1 then [(dval c1, [])] else []
  | [] => []

/-- Candidates for `%M` (`[0-5]\d|\d`). -/
def minuteAlts : List Char → List (Nat × List Char)
  | c1 :: c2 :: rest =>
    (if 48 ≤ c1.toNat && c1.toNat ≤ 53 && isDigitChar c2 then
      [(10 * dval c1 + dval c2, rest)] else []) ++
    (if isDigitChar c1 then [(dval c1, c2 :: rest)] else [])
  | [c1] => if isDigitChar c1 then [(dval c1, [])] else []
  | [] => []

/-- Candidates for `%S` (`6[0-1]|[0-5]\d|\d`). -/
def secondAlts : List Char → List (Nat × List Char)
  | c1 :: c2 :: rest =>
    (if c1 = '6' && (c2 = '0' || c2 = '1') then [(60 + dval c2, rest)] else []) ++
    (if 48 ≤ c1.toNat && c1.toNat ≤ 53 && isDigitChar c2 then
      [(10 * dval c1 + dval c2, rest)] else []) ++
    (if isDigitChar c1 then [(dval c1, c2 :: rest)] else [])
  | [c1] => if isDigitChar c1 then [(dval c1, [])] else []
  | [] => []

/-- `%Y` matches exactly four digits. -/
def yearParse : List Char → Option (Nat × List Char)
  | a :: b :: c :: d :: rest =>
    if isDigitChar a && isDigitChar b && isDigitChar c && isDigitChar d then
      some (1000 * dval a + 100 * dval b + 10 * dval c + dval d, rest)
    else none
  | _ => none

/-- First success of `f` over a list of candidates (backtracking search). -/
def firstSome {α β : Type} (f : α → Option β) : List α → Option β
  | [] => none
  | a :: as =>
    match f a with
    | some b => some b
    | none => firstSome f as

/-- The regex match of `"%Y%m%dT%H%M%SZ"` against a character sequence:
the first full match in backtracking order, as captured field values
`(year, month, day, hour, minute, second)`. -/
def strptimeMatch (cs : List Char) : Option (Nat × Nat × Nat × Nat × Nat × Nat) :=
  match yearParse cs with
  | none => none
  | some (y, cs1) =>
    firstSome (fun mc =>
      firstSome (fun dc =>
        match dc.2 with
        | [] => none
        | t :: cs4 =>
          if t = 'T' || t = 't' then
            firstSome (fun hc =>
              firstSome (fun mic =>
                firstSome (fun sc =>
                  match sc.2 with
                  | [z] => if z = 'Z' || z = 'z' then
                      some (y, mc.1, dc.1, hc.1, mic.1, sc.1) else none
                  | _ => none)
                  (secondAlts mic.2))
                (minuteAlts hc.2))
              (hourAlts cs4)
          else none)
        (dayAlts mc.2))
      (monthAlts cs1)

/-- Gregorian leap-year rule used by `datetime`. -/
def isLeapYear (y : Nat) : Bool := y % 4 = 0 && (y % 100 ≠ 0 || y % 400 = 0)

/-- Days in a month, as validated by the `datetime` constructor. -/
def daysInMonth (y m : Nat) : Nat :=
  if m = 2 then (if isLeapYear y then 29 else 28)
  else if m = 4 || m = 6 || m = 9 || m = 11 then 30
  else 31

/-- `datetime.strptime(s, "%Y%m%dT%H%M%SZ")` succeeds: the regex matches the
whole string and the captured fields pass the `datetime` constructor's range
checks (`MINYEAR ≤ y ≤ MAXYEAR`, valid calendar day, `second ≤ 59` — the
regex can capture leap seconds 60/61, which the constructor rejects). -/
def strptimeValid (s : String) : Bool :=
  match strptimeMatch s.toList with
  | none => false
  | some (y, m, d, h, mi, sec) =>
    decide (1 ≤ y ∧ y ≤ 9999 ∧ 1 ≤ m ∧ m ≤ 12 ∧ 1 ≤ d ∧ d ≤ daysInMonth y m ∧
      h ≤ 23 ∧ mi ≤ 59 ∧ sec ≤ 59)

/-- Spec-side definition, for refinement comparison only, following the
spec's words: a timestamp "must parse exactly against the pattern
`YYYYMMDDTHHMMSSZ` (4-digit year, 2-digit month, 2-digit day, literal `T`,
2-digit hour, 2-digit minute, 2-digit second, literal `Z`)". -/
def specTimePattern (s : String) : Bool :=
  match s.toList with
  | [y1, y2, y3, y4, m1, m2, d1, d2, t, h1, h2, n1, n2, s1, s2, z] =>
    isDigitChar y1 && isDigitChar y2 && isDigitChar y3 && isDigitChar y4 &&
    isDigitChar m1 && isDigitChar m2 && isDigitChar d1 && isDigitChar d2 &&
    t == 'T' && isDigitChar h1 && isDigitChar h2 && isDigitChar n1 &&
    isDigitChar n2 && isDigitChar s1 && isDigitChar s2 && z == 'Z'
  | _ => false

/-! ### The response body and the normalizer -/

/-- The JSON body of an endpoint response: the data shape
`{"vertices": ..., "labels": ..., ["message": ...]}` or the error shape
`{"error": ...}`. -/
inductive ApiBody where
  | data : List (List ℚ) → List Json → Option String → ApiBody
  | error : String → ApiBody

/-- An HTTP response of the handler: status code plus JSON body. -/
structure ApiResponse where
  status : Nat
  body : ApiBody

/-- The `vertices` field of a body (absent on the error shape). -/
def ApiBody.vertices : ApiBody → List (List ℚ)
  | .data vs _ _ => vs
  | .error _ => []

/-- The `labels` field of a body (absent on the error shape). -/
def ApiBody.labels : ApiBody → List Json
  | .data _ ls _ => ls
  | .error _ => []

/-- The optional `message` field of a body. -/
def ApiBody.message : ApiBody → Option String
  | .data _ _ m => m
  | .error _ => none

/-- The optional `error` field of a body. -/
def ApiBody.errorMsg : ApiBody → Option String
  | .data _ _ _ => none
  | .error e => some e

def MSG_PARSE : String := "Could not parse satellite data from NASA response."
def MSG_NODATA : String := "No satellite data found for the specified parameters."
def ERROR_MISSING : String :=
  "Missing start_time or end_time parameters. Expected format YYYYMMDDTHHMMSSZ."
def ERROR_FORMAT : String := "Invalid time format. Expected %Y%m%dT%H%M%SZ."
def ERR_UNEXPECTED : String := "An unexpected server error occurred."

/-- The `f"Failed to fetch ... Status: {status_code}."` message. -/
def fetchErrorMsg (status : Nat) : String :=
  "Failed to fetch satellite data from NASA SSC. Status: " ++ toString status ++ "."

/-- The guarded descent `data[1]["Result"][1]["Data"][1]`, returning `none`
exactly when the handler's nested `if isinstance(...) and len(...) > 1`
checks leave `list_of_satellites` as `None`. -/
def listOfSatellites (data : Json) : Option Json :=
  match data with
  | .arr items =>
    if items.length > 1 then
      match (items[1]? : Option Json) with
      | some (.obj resultData) =>
        match List.lookup "Result" resultData with
        | some (.arr res) =>
          if res.length > 1 then
            match (res[1]? : Option Json) with
            | some (.obj dataSection) =>
              match List.lookup "Data" dataSection with
              | some (.arr dat) =>
                if dat.length > 1 then dat[1]? else none
              | _ => none
            | _ => none
          else none
        | _ => none
      | _ => none
    else none
  | _ => none

/-- `list_of_satellites` after the final
`is None or not isinstance(list_of_satellites, list)` check. -/
def extractSatellites (data : Json) : Option (List Json) :=
  match listOfSatellites data with
  | some (.arr sats) => some sats
  | _ => none

/-- The satellite details dict: `satellite_block` must be a list of length
`> 1` with a dict at index 1. -/
def blockDetails (block : Json) : Option (List (String × Json)) :=
  match block with
  | .arr items =>
    if items.length > 1 then
      match (items[1]? : Option Json) with
      | some (.obj details) => some details
      | _ => none
    else none
  | _ => none

/-- The coordinate-set dict `details["Coordinates"][1][0][1]`, guarded by
`if coordinates_block and isinstance(...)` shape checks. -/
def coordsData (details : List (String × Json)) : Option (List (String × Json)) :=
  match List.lookup "Coordinates" details with
  | none => none
  | some cb =>
    if cb.truthy then
      match cb with
      | .arr items =>
        if items.length > 1 then
          match (items[1]? : Option Json) with
          | some (.arr inner) =>
            if inner.length > 0 then
              match (inner[0]? : Option Json) with
              | some (.arr pair) =>
                if pair.length > 1 then
                  match (pair[1]? : Option Json) with
                  | some (.obj cd) => some cd
                  | _ => none
                else none
              | _ => none
            else none
          | _ => none
        else none
      | _ => none
    else none

/-- `vb[1] if isinstance(vb, list) and len(vb) > 1 and isinstance(vb[1], list)
else []` — the numeric sequence inside one `X`/`Y`/`Z` envelope. -/
def envList (block? : Option Json) : List Json :=
  match block? with
  | some (.arr items) =>
    if items.length > 1 then
      match (items[1]? : Option Json) with
      | some (.arr vals) => vals
      | _ => []
    else []
  | _ => []

/-- The body of the inner `try` at one index `i`: convert `x_vals[i]`,
`y_vals[i]`, `z_vals[i]` to float and scale each by `/ 1e6`; `none` when a
conversion raises and the point is skipped. -/
def convertPoint (xs ys zs : List Json) (i : Nat) : Option (List ℚ) :=
  match xs[i]? with
  | none => none
  | some jx =>
    match pyFloat jx with
    | none => none
    | some x =>
      match ys[i]? with
      | none => none
      | some jy =>
        match pyFloat jy with
        | none => none
        | some y =>
          match zs[i]? with
          | none => none
          | some jz =>
            match pyFloat jz with
            | none => none
            | some z => some [x / 1000000, y / 1000000, z / 1000000]

/-- The `for i in range(min_len)` loop: appends the scaled triple to
`vertices` and the satellite id to `labels` on success, skips on failure. -/
def pointsLoop (xs ys zs : List Json) (satId : Json) (n : Nat) :
    List (List ℚ) × List Json :=
  (List.range n).foldl
    (fun acc i =>
      match convertPoint xs ys zs i with
      | some v => (acc.1 ++ [v], acc.2 ++ [satId])
      | none => acc)
    ([], [])

/-- The per-satellite-block body of the main loop: shape checks, `Id`
extraction, coordinate extraction and the inner points loop.  Returns the
vertices and labels this block appends. -/
def processBlock (block : Json) : List (List ℚ) × List Json :=
  match blockDetails block with
  | some details =>
    let satId := (List.lookup "Id" details).getD (.str "Unknown Satellite")
    match coordsData details with
    | some cd =>
      let xs := envList (List.lookup "X" cd)
      let ys := envList (List.lookup "Y" cd)
      let zs := envList (List.lookup "Z" cd)
      let minLen := min xs.length (min ys.length zs.length)
      if minLen > 0 then pointsLoop xs ys zs satId minLen else ([], [])
    | none => ([], [])
  | none => ([], [])

/-- The main loop over `list_of_satellites`, accumulating `vertices` and
`labels` by appending each block's contribution. -/
def processSatellites (sats : List Json) : List (List ℚ) × List Json :=
  sats.foldl
    (fun acc block =>
      (acc.1 ++ (processBlock block).1, acc.2 ++ (processBlock block).2))
    ([], [])

/-- Everything after `data = response.json()`: descent, block loop, and the
empty-result and success returns (all HTTP 200). -/
def normalizeData (data : Json) : ApiResponse :=
  match extractSatellites data with
  | none => ⟨200, ApiBody.data [] [] (some MSG_PARSE)⟩
  | some sats =>
    let r := processSatellites sats
    if r.1.isEmpty then ⟨200, ApiBody.data [] [] (some MSG_NODATA)⟩
    else ⟨200, ApiBody.data r.1 r.2 none⟩

/-! ### The HTTP layer -/

/-- The outcome of `requests.get(...)`: a connection-level failure (the
raised `RequestException` carries `e.response is None`), or an HTTP response
with its status code and its JSON-decoded body (`none` when
`response.json()` raises). -/
inductive FetchOutcome where
  | connError : FetchOutcome
  | response : Nat → Option Json → FetchOutcome

/-- `request.args.get(name)` results for the five query parameters
(`none` when the parameter is absent). -/
structure QueryParams where
  observatories : Option String
  start_time : Option String
  end_time : Option String
  coordinate_system : Option String
  resolution_factor : Option String

/-- Python truthiness of `request.args.get(...)`: `not s` holds for an
absent parameter (`None`) and for the empty string. -/
def pyFalsyStr : Option String → Bool
  | none => true
  | some s => decide (s = "")

/-- The time-parameter validation block: missing check first, then both
`strptime` calls; `none` means validation passed and the request proceeds. -/
def validateTimes (start? end? : Option String) : Option ApiResponse :=
  if pyFalsyStr start? || pyFalsyStr end? then
    some ⟨400, ApiBody.error ERROR_MISSING⟩
  else if !(strptimeValid (start?.getD "") && strptimeValid (end?.getD "")) then
    some ⟨400, ApiBody.error ERROR_FORMAT⟩
  else none

/-- ASCII model of Python `str.upper()` on one character. -/
def charUpper (c : Char) : Char :=
  if 'a' ≤ c && c ≤ 'z' then Char.ofNat (c.toNat - 32) else c

/-- ASCII model of Python `str.upper()` (the coordinate-system identifiers
are all ASCII). -/
def strUpper (s : String) : String := ⟨s.data.map charUpper⟩

/-- The fixed enumerated set `supported_systems`. -/
def supported_systems : List String :=
  ["GSE", "GEO", "GSM", "SM", "MAG", "LGM", "RTN", "RTP", "GSEQ"]

/-- The coordinate-system substitution: default `"GSE"` when absent, and
replace by `"GSE"` when `coordinate_system.upper()` is not supported. -/
def resolvedCoordSystem (cs? : Option String) : String :=
  let cs := cs?.getD "GSE"
  if strUpper cs ∈ supported_systems then cs else "GSE"

def NASA_SSC_API_URL : String := "https://sscweb.gsfc.nasa.gov/WS/sscr/2"

/-- The f-string URL: `{base}/locations/{obs}/{start},{end}/{cs.upper()}/`. -/
def buildUrl (observatories_str start_time_str end_time_str coordinate_system : String) :
    String :=
  NASA_SSC_API_URL ++ "/locations/" ++ observatories_str ++ "/" ++
    start_time_str ++ "," ++ end_time_str ++ "/" ++ strUpper coordinate_system ++ "/"

/-- The URL the handler requests once validation has passed. -/
def requestUrl (q : QueryParams) : String :=
  buildUrl (q.observatories.getD "ace,wind,goes17,goes16")
    (q.start_time.getD "") (q.end_time.getD "")
    (resolvedCoordSystem q.coordinate_system)

/-- The outer `try`: `raise_for_status()` raises `HTTPError` exactly for
4xx/5xx statuses (surfacing that status), a connection-level failure
surfaces 500, a JSON-decoding failure falls to the generic 500 handler, and
otherwise the body is normalized. -/
def handleFetch (fetch : FetchOutcome) : ApiResponse :=
  match fetch with
  | .connError => ⟨500, ApiBody.error (fetchErrorMsg 500)⟩
  | .response status body =>
    if 400 ≤ status ∧ status < 600 then
      ⟨status, ApiBody.error (fetchErrorMsg status)⟩
    else
      match body with
      | none => ⟨500, ApiBody.error ERR_UNEXPECTED⟩
      | some data => normalizeData data

/-- The whole handler as a pure function of the query parameters and the
would-be upstream fetch outcome. -/
def handleRequest (q : QueryParams) (fetch : FetchOutcome) : ApiResponse :=
  match validateTimes q.start_time q.end_time with
  | some errResp => errResp
  | none => handleFetch fetch

/-! ### Derived accessors used in statements -/

/-- The satellite `Id` label this block would contribute:
`satellite_details.get("Id", "Unknown Satellite")`. -/
def blockId (block : Json) : Json :=
  match blockDetails block with
  | some details => (List.lookup "Id" details).getD (.str "Unknown Satellite")
  | none => .str "Unknown Satellite"

/-- The coordinate-set dict of a block, when every shape check passes. -/
def blockCoords (block : Json) : Option (List (String × Json)) :=
  match blockDetails block with
  | some details => coordsData details
  | none => none

/-- The block's `x_vals` numeric sequence. -/
def blockXs (block : Json) : List Json :=
  match blockCoords block with
  | some cd => envList (List.lookup "X" cd)
  | none => []

/-- The block's `y_vals` numeric sequence. -/
def blockYs (block : Json) : List Json :=
  match blockCoords block with
  | some cd => envList (List.lookup "Y" cd)
  | none => []

/-- The block's `z_vals` numeric sequence. -/
def blockZs (block : Json) : List Json :=
  match blockCoords block with
  | some cd => envList (List.lookup "Z" cd)
  | none => []

/-- `min_len = min(len(x_vals), len(y_vals), len(z_vals))` for a block. -/
def blockMinLen (block : Json) : Nat :=
  min (blockXs block).length (min (blockYs block).length (blockZs block).length)

/-- Conversion of the block's point at index `i`. -/
def convertAt (block : Json) (i : Nat) : Option (List ℚ) :=
  convertPoint (blockXs block) (blockYs block) (blockZs block) i

/-! ### Concrete data used by witnesses and counterexamples -/

/-- A satellite block for `ace` whose `X` sequence has a non-numeric value at
index 1 and whose `Z` sequence is shorter than `X` and `Y`
(lengths 3, 3, 2, so `min_len = 2`). -/
def exBlock : Json :=
  .arr [.null, .obj [("Id", .str "ace"),
    ("Coordinates", .arr [.null, .arr [.arr [.null, .obj [
      ("X", .arr [.null, .arr [.num 1000000, .str "oops", .num 3000000]]),
      ("Y", .arr [.null, .arr [.num 1000000, .num 2000000, .num 3000000]]),
      ("Z", .arr [.null, .arr [.num 1000000, .num 2000000]])]]]])]]

/-- A full upstream response envelope containing just `exBlock`. -/
def exData : Json :=
  .arr [.null, .obj [("Result", .arr [.null,
    .obj [("Data", .arr [.null, .arr [exBlock]])]])]]

/-- A block with all-numeric coordinate sequences of lengths 3, 3 and 2. -/
def exBlock332 : Json :=
  .arr [.null, .obj [("Id", .str "wind"),
    ("Coordinates", .arr [.null, .arr [.arr [.null, .obj [
      ("X", .arr [.null, .arr [.num 1000000, .num 2000000, .num 3000000]]),
      ("Y", .arr [.null, .arr [.num 4000000, .num 5000000, .num 6000000]]),
      ("Z", .arr [.null, .arr [.num 7000000, .num 8000000]])]]]])]]

/-! ### Characterizations of the imperative loops -/

/-- The inner points loop, generalized over the iterated index list and the
accumulated `vertices`/`labels`. -/
lemma pointsLoop_go (xs ys zs : List Json) (satId : Json) (l : List Nat)
    (acc : List (List ℚ) × List Json) :
    l.foldl
      (fun acc i =>
        match convertPoint xs ys zs i with
        | some v => (acc.1 ++ [v], acc.2 ++ [satId])
        | none => acc) acc
    = (acc.1 ++ l.filterMap (convertPoint xs ys zs),
       acc.2 ++ (l.filterMap (convertPoint xs ys zs)).map (fun _ => satId)) := by
  induction l generalizing acc with
  | nil => simp
  | cons i is ih =>
    simp only [List.foldl_cons, List.filterMap_cons]
    cases h : convertPoint xs ys zs i with
    | none => simp [h, ih]
    | some v => simp [h, ih]

/-- The points loop builds the `filterMap` of the conversion over
`range min_len`, with one label per appended vertex. -/
lemma pointsLoop_eq (xs ys zs : List Json) (satId : Json) (n : Nat) :
    pointsLoop xs ys zs satId n
      = ((List.range n).filterMap (convertPoint xs ys zs),
         ((List.range n).filterMap (convertPoint xs ys zs)).map (fun _ => satId)) := by
  simpa [pointsLoop] using pointsLoop_go xs ys zs satId (List.range n) ([], [])

/-- The block loop, generalized over the accumulator. -/
lemma processSatellites_go (sats : List Json) (acc : List (List ℚ) × List Json) :
    sats.foldl
      (fun acc block =>
        (acc.1 ++ (processBlock block).1, acc.2 ++ (processBlock block).2)) acc
    = (acc.1 ++ (sats.map (fun b => (processBlock b).1)).flatten,
       acc.2 ++ (sats.map (fun b => (processBlock b).2)).flatten) := by
  induction sats generalizing acc with
  | nil => simp
  | cons b bs ih => simp [ih]

/-- The block loop concatenates the per-block contributions in block order. -/
lemma processSatellites_eq (sats : List Json) :
    processSatellites sats
      = ((sats.map (fun b => (processBlock b).1)).flatten,
         (sats.map (fun b => (processBlock b).2)).flatten) := by
  simpa [processSatellites] using processSatellites_go sats ([], [])

/-- A block's vertices are the successful conversions over `range min_len`,
in increasing index order. -/
lemma processBlock_fst (block : Json) :
    (processBlock block).1
      = (List.range (blockMinLen block)).filterMap (convertAt block) := by
  cases hd : blockDetails block with
  | none =>
    simp [processBlock, hd, convertAt, blockXs, blockYs, blockZs, blockCoords, blockMinLen]
  | some details =>
    cases hc : coordsData details with
    | none =>
      simp [processBlock, hd, hc, convertAt, blockXs, blockYs, blockZs, blockCoords,
        blockMinLen]
    | some cd =>
      have hx : blockXs block = envList (List.lookup "X" cd) := by
        simp [blockXs, blockCoords, hd, hc]
      have hy : blockYs block = envList (List.lookup "Y" cd) := by
        simp [blockYs, blockCoords, hd, hc]
      have hz : blockZs block = envList (List.lookup "Z" cd) := by
        simp [blockZs, blockCoords, hd, hc]
      have hconv : convertAt block = convertPoint (envList (List.lookup "X" cd))
          (envList (List.lookup "Y" cd)) (envList (List.lookup "Z" cd)) := by
        funext i
        simp [convertAt, hx, hy, hz]
      have hmin : blockMinLen block = min (envList (List.lookup "X" cd)).length
          (min (envList (List.lookup "Y" cd)).length
            (envList (List.lookup "Z" cd)).length) := by
        simp [blockMinLen, hx, hy, hz]
      rw [hconv, hmin]
      simp only [processBlock, hd, hc]
      split
      · rw [pointsLoop_eq]
      · next h =>
        have h0 : min (envList (List.lookup "X" cd)).length
            (min (envList (List.lookup "Y" cd)).length
              (envList (List.lookup "Z" cd)).length) = 0 := by omega
        simp [h0]

/-- A block's labels are one copy of its id per appended vertex. -/
lemma processBlock_snd (block : Json) :
    (processBlock block).2 = ((processBlock block).1).map (fun _ => blockId block) := by
  cases hd : blockDetails block with
  | none => simp [processBlock, hd]
  | some details =>
    cases hc : coordsData details with
    | none => simp [processBlock, hd, hc]
    | some cd =>
      simp only [processBlock, hd, hc, blockId]
      split
      · rw [pointsLoop_eq]
      · simp

/-- The flattened (vertex, label) pairs in output order. -/
def satellitePairs (sats : List Json) : List (List ℚ × Json) :=
  (sats.map (fun b => ((processBlock b).1).map (fun v => (v, blockId b)))).flatten

lemma satellitePairs_fst (sats : List Json) :
    (satellitePairs sats).map Prod.fst = (processSatellites sats).1 := by
  rw [processSatellites_eq, satellitePairs, List.map_flatten, List.map_map]
  congr 1
  apply List.map_congr_left
  intro b _
  simp only [Function.comp_apply]
  rw [List.map_map]
  exact List.map_id _

lemma satellitePairs_snd (sats : List Json) :
    (satellitePairs sats).map Prod.snd = (processSatellites sats).2 := by
  rw [processSatellites_eq, satellitePairs, List.map_flatten, List.map_map]
  congr 1
  apply List.map_congr_left
  intro b _
  simp only [Function.comp_apply]
  rw [List.map_map, processBlock_snd]
  rfl

lemma mem_satellitePairs {sats : List Json} {p : List ℚ × Json}
    (hp : p ∈ satellitePairs sats) :
    ∃ b ∈ sats, p.1 ∈ (processBlock b).1 ∧ p.2 = blockId b := by
  simp only [satellitePairs, List.mem_flatten, List.mem_map] at hp
  obtain ⟨piece, ⟨b, hb, rfl⟩, hpp⟩ := hp
  obtain ⟨v, hv, rfl⟩ := List.mem_map.mp hpp
  exact ⟨b, hb, hv, rfl⟩

/-- When a satellite list yields no vertices it also yields no labels. -/
lemma processSatellites_snd_eq_nil {sats : List Json}
    (h : (processSatellites sats).1 = []) : (processSatellites sats).2 = [] := by
  have h1 := satellitePairs_fst sats
  rw [h] at h1
  have hp : satellitePairs sats = [] := List.map_eq_nil_iff.mp h1
  rw [← satellitePairs_snd, hp]
  rfl

/-- The labels side of the block loop, with each block's labels expressed as
copies of its id. -/
lemma processSatellites_snd_join (sats : List Json) :
    (processSatellites sats).2
      = (sats.map (fun b => ((processBlock b).1).map (fun _ => blockId b))).flatten := by
  rw [processSatellites_eq]
  simp [processBlock_snd]

/-- Inversion of a successful point conversion: the three upstream scalars
exist at index `i`, each converts, and the result is the scaled triple. -/
lemma convertPoint_some {xs ys zs : List Json} {i : Nat} {v : List ℚ}
    (h : convertPoint xs ys zs i = some v) :
    ∃ jx jy jz x y z, xs[i]? = some jx ∧ ys[i]? = some jy ∧ zs[i]? = some jz ∧
      pyFloat jx = some x ∧ pyFloat jy = some y ∧ pyFloat jz = some z ∧
      v = [x / 1000000, y / 1000000, z / 1000000] := by
  unfold convertPoint at h
  cases hjx : xs[i]? with
  | none => simp only [hjx] at h; exact Option.noConfusion h
  | some jx =>
    simp only [hjx] at h
    cases hfx : pyFloat jx with
    | none => simp only [hfx] at h; exact Option.noConfusion h
    | some x =>
      simp only [hfx] at h
      cases hjy : ys[i]? with
      | none => simp only [hjy] at h; exact Option.noConfusion h
      | some jy =>
        simp only [hjy] at h
        cases hfy : pyFloat jy with
        | none => simp only [hfy] at h; exact Option.noConfusion h
        | some y =>
          simp only [hfy] at h
          cases hjz : zs[i]? with
          | none => simp only [hjz] at h; exact Option.noConfusion h
          | some jz =>
            simp only [hjz] at h
            cases hfz : pyFloat jz with
            | none => simp only [hfz] at h; exact Option.noConfusion h
            | some z =>
              simp only [hfz] at h
              cases h
              exact ⟨jx, jy, jz, x, y, z, rfl, rfl, rfl, hfx, hfy, hfz, rfl⟩

/-- A string accepted by the time validation is nonempty. -/
lemma strptimeValid_ne_empty {s : String} (h : strptimeValid s = true) : s ≠ "" := by
  rintro rfl
  exact absurd h (by decide)

/-! ### Evaluation facts for the concrete examples -/

/-- Full evaluation of the example envelope: one vertex `[1, 1, 1]` labelled
`"ace"` (index 1 of the block is skipped, index 0 is scaled by `1e6`). -/
lemma normalizeData_exData :
    normalizeData exData
      = ⟨200, ApiBody.data [[1, 1, 1]] [Json.str "ace"] none⟩ := by
  have h : normalizeData exData
      = ⟨200, ApiBody.data
          [[1000000 / 1000000, 1000000 / 1000000, 1000000 / 1000000]]
          [Json.str "ace"] none⟩ := rfl
  rw [h]
  norm_num

/-- Index 0 of the example block converts to the scaled triple `[1, 1, 1]`. -/
lemma convertAt_exBlock_zero : convertAt exBlock 0 = some [1, 1, 1] := by
  have h : convertAt exBlock 0
      = some [1000000 / 1000000, 1000000 / 1000000, 1000000 / 1000000] := rfl
  rw [h]
  norm_num

/-! ### Claims -/

/-- C1: on every success or empty-result path the output arrays are
parallel — `len(vertices) == len(labels)` — and the vertex at index `i` was
extracted from the satellite block whose id is `labels[i]`; the paired
appends performed during normalization preserve this invariant. -/
theorem C1_parallel_vertices_labels (data : Json) :
    ((normalizeData data).body.vertices).length
      = ((normalizeData data).body.labels).length ∧
    ∀ (i : Nat) (v : List ℚ) (lab : Json),
      ((normalizeData data).body.vertices)[i]? = some v →
      ((normalizeData data).body.labels)[i]? = some lab →
      ∃ sats block, extractSatellites data = some sats ∧ block ∈ sats ∧
        lab = blockId block ∧ v ∈ (processBlock block).1 := by
  cases hx : extractSatellites data with
  | none =>
    refine ⟨by simp [normalizeData, hx, ApiBody.vertices, ApiBody.labels], ?_⟩
    intro i v lab hv hl
    simp [normalizeData, hx, ApiBody.vertices] at hv
  | some sats =>
    by_cases he : (processSatellites sats).1.isEmpty = true
    · refine ⟨by simp [normalizeData, hx, he, ApiBody.vertices, ApiBody.labels], ?_⟩
      intro i v lab hv hl
      simp [normalizeData, hx, he, ApiBody.vertices] at hv
    · have hv1 : (normalizeData data).body.vertices
          = (satellitePairs sats).map Prod.fst := by
        simp [normalizeData, hx, he, ApiBody.vertices, satellitePairs_fst]
      have hl1 : (normalizeData data).body.labels
          = (satellitePairs sats).map Prod.snd := by
        simp [normalizeData, hx, he, ApiBody.labels, satellitePairs_snd]
      constructor
      · rw [hv1, hl1]
        simp
      · intro i v lab hv hl
        rw [hv1, List.getElem?_map] at hv
        rw [hl1, List.getElem?_map] at hl
        obtain ⟨p, hp, hpv⟩ := Option.map_eq_some'.mp hv
        obtain ⟨p2, hp2, hpl⟩ := Option.map_eq_some'.mp hl
        rw [hp] at hp2
        cases hp2
        obtain ⟨b, hb, hbv, hbl⟩ := mem_satellitePairs (List.getElem?_mem hp)
        exact ⟨sats, b, rfl, hb, by rw [← hpl, hbl], by rw [← hpv]; exact hbv⟩

/-- C1 witness: for the concrete envelope `exData` the two arrays have equal
length, and the pair at index 0 is the `ace` point `[1, 1, 1]`. -/
theorem C1_witness :
    ((normalizeData exData).body.vertices).length
      = ((normalizeData exData).body.labels).length ∧
    ∃ sats block, extractSatellites exData = some sats ∧ block ∈ sats ∧
      Json.str "ace" = blockId block ∧ [(1 : ℚ), 1, 1] ∈ (processBlock block).1 :=
  ⟨(C1_parallel_vertices_labels exData).1,
   (C1_parallel_vertices_labels exData).2 0 [1, 1, 1] (Json.str "ace")
     (by rw [normalizeData_exData]; rfl) (by rw [normalizeData_exData]; rfl)⟩

/-- C3: for every satellite block exactly the indices `0..min_len-1` are
iterated (`min_len = min(len(X), len(Y), len(Z))`), so the number of points
never exceeds the shortest sequence; the concrete block with lengths 3, 3, 2
yields exactly 2 points. -/
theorem C3_min_len_governs_iteration (block : Json) :
    (processBlock block).1
      = (List.range (blockMinLen block)).filterMap (convertAt block) ∧
    (processBlock block).1.length ≤ blockMinLen block ∧
    (blockXs exBlock332).length = 3 ∧ (blockYs exBlock332).length = 3 ∧
    (blockZs exBlock332).length = 2 ∧ (processBlock exBlock332).1.length = 2 := by
  refine ⟨processBlock_fst block, ?_, by decide, by decide, by decide, by decide⟩
  rw [processBlock_fst]
  calc ((List.range (blockMinLen block)).filterMap (convertAt block)).length
      ≤ (List.range (blockMinLen block)).length := List.length_filterMap_le _ _
    _ = blockMinLen block := List.length_range _

/-- C4: a conversion failure at index `k` skips only that point — the
satellite is not aborted, the request still succeeds with a 200 data
response, and every index whose three values convert still contributes its
vertex to the output. -/
theorem C4_conversion_failure_skips_one_point (data : Json) (sats : List Json)
    (block : Json) (k i : Nat) (v : List ℚ)
    (hs : extractSatellites data = some sats) (hb : block ∈ sats)
    (hk : k < blockMinLen block) (hfail : convertAt block k = none)
    (hi : i < blockMinLen block) (hsucc : convertAt block i = some v) :
    v ∈ (normalizeData data).body.vertices ∧
    (normalizeData data).status = 200 ∧
    (normalizeData data).body.errorMsg = none ∧
    (processBlock block).1
      = (List.range (blockMinLen block)).filterMap (convertAt block) := by
  have hvmem : v ∈ (processSatellites sats).1 := by
    rw [processSatellites_eq]
    refine List.mem_flatten.mpr ⟨(processBlock block).1,
      List.mem_map.mpr ⟨block, hb, rfl⟩, ?_⟩
    rw [processBlock_fst]
    exact List.mem_filterMap.mpr ⟨i, List.mem_range.mpr hi, hsucc⟩
  have hne : (processSatellites sats).1.isEmpty = false := by
    cases h : (processSatellites sats).1 with
    | nil => rw [h] at hvmem; cases hvmem
    | cons a l => rfl
  refine ⟨?_, ?_, ?_, processBlock_fst block⟩ <;>
    simp [normalizeData, hs, hne, ApiBody.vertices, ApiBody.errorMsg, hvmem]

/-- C4 witness: in `exData` the `ace` block fails conversion at index 1
(`X[1] = "oops"`) yet index 0 still contributes `[1, 1, 1]` and the request
returns 200 without an error field. -/
theorem C4_witness :
    [(1 : ℚ), 1, 1] ∈ (normalizeData exData).body.vertices ∧
    (normalizeData exData).status = 200 ∧
    (normalizeData exData).body.errorMsg = none ∧
    (processBlock exBlock).1
      = (List.range (blockMinLen exBlock)).filterMap (convertAt exBlock) :=
  C4_conversion_failure_skips_one_point exData [exBlock] exBlock 1 0 [1, 1, 1]
    rfl (List.mem_singleton.mpr rfl) (by decide) rfl (by decide) convertAt_exBlock_zero

/-- C5: when the descent to the satellite list fails, or when processing all
blocks produced zero vertices, the handler returns HTTP 200 with empty
`vertices` and `labels`, a `message` field, and no `error` field. -/
theorem C5_empty_result_is_200_with_message (data : Json)
    (h : extractSatellites data = none ∨
      (processSatellites ((extractSatellites data).getD [])).1 = []) :
    (normalizeData data).status = 200 ∧
    (normalizeData data).body.vertices = [] ∧
    (normalizeData data).body.labels = [] ∧
    (normalizeData data).body.message.isSome = true ∧
    (normalizeData data).body.errorMsg = none := by
  cases hx : extractSatellites data with
  | none =>
    simp [normalizeData, hx, ApiBody.vertices, ApiBody.labels, ApiBody.message,
      ApiBody.errorMsg]
  | some sats =>
    have hemp : (processSatellites sats).1 = [] := by
      rcases h with h | h
      · rw [hx] at h; cases h
      · rw [hx] at h; simpa using h
    simp [normalizeData, hx, hemp, ApiBody.vertices, ApiBody.labels, ApiBody.message,
      ApiBody.errorMsg]

/-- C5 witness: a root that is not even a list (`null`) takes the
no-data path: 200, empty arrays, message present, no error. -/
theorem C5_witness :
    (normalizeData Json.null).status = 200 ∧
    (normalizeData Json.null).body.vertices = [] ∧
    (normalizeData Json.null).body.labels = [] ∧
    (normalizeData Json.null).body.message.isSome = true ∧
    (normalizeData Json.null).body.errorMsg = none :=
  C5_empty_result_is_200_with_message Json.null (Or.inl rfl)

/-- C2 counterexample: `"202411T000000Z"` does not match the exact
`YYYYMMDDTHHMMSSZ` pattern (it is 14 characters, with unpadded month and
day), yet the handler's validation accepts it, so "any partial or
loosely-formatted timestamp yields 400" is false of the code. -/
theorem C2_counterexample :
    specTimePattern "202411T000000Z" = false ∧
    validateTimes (some "202411T000000Z") (some "20240101T000000Z") = none := by
  exact ⟨by decide, rfl⟩

/-- C2 amended: a missing (or empty) time parameter yields 400
`MissingParameter` regardless of the other parameters; when both are
present, each is validated by `datetime.strptime` with `"%Y%m%dT%H%M%SZ"` —
which accepts the zero-padded 16-character form but also unpadded
month/day/hour/minute/second, a space-padded day, and lowercase `t`/`z`,
and rejects calendar-invalid dates — with 400 `InvalidTimeFormat` on
failure and the request proceeding to the upstream fetch on success.  In
particular `"20240101T000000Z"` is accepted, `"2024-01-01T00:00:00Z"` is
rejected, and the loosely-formatted `"202411T000000Z"` and space-padded
`"202401 1T000000Z"` are accepted. -/
theorem C2_amended_time_validation (q : QueryParams) (fetch : FetchOutcome) :
    (pyFalsyStr q.start_time = true ∨ pyFalsyStr q.end_time = true →
      handleRequest q fetch = ⟨400, ApiBody.error ERROR_MISSING⟩) ∧
    (pyFalsyStr q.start_time = false → pyFalsyStr q.end_time = false →
      ((strptimeValid (q.start_time.getD "") = false ∨
          strptimeValid (q.end_time.getD "") = false) →
        handleRequest q fetch = ⟨400, ApiBody.error ERROR_FORMAT⟩) ∧
      (strptimeValid (q.start_time.getD "") = true →
        strptimeValid (q.end_time.getD "") = true →
        handleRequest q fetch = handleFetch fetch)) ∧
    strptimeValid "20240101T000000Z" = true ∧
    strptimeValid "2024-01-01T00:00:00Z" = false ∧
    strptimeValid "202411T000000Z" = true ∧
    strptimeValid "202401 1T000000Z" = true := by
  refine ⟨?_, ?_, by decide, by decide, by decide, by decide⟩
  · intro h
    rcases h with h | h <;> simp [handleRequest, validateTimes, h]
  · intro h1 h2
    constructor
    · intro h
      rcases h with h | h <;> simp [handleRequest, validateTimes, h1, h2, h]
    · intro hv1 hv2
      simp [handleRequest, validateTimes, h1, h2, hv1, hv2]

/-- C2 witness: with both time parameters absent the handler returns 400
`MissingParameter`. -/
theorem C2_witness :
    handleRequest ⟨none, none, none, none, none⟩ FetchOutcome.connError
      = ⟨400, ApiBody.error ERROR_MISSING⟩ :=
  (C2_amended_time_validation ⟨none, none, none, none, none⟩
    FetchOutcome.connError).1 (Or.inl rfl)

/-- C6 counterexample: an upstream response with the non-2xx status 300 and
a usable JSON body is not treated as a failure — `raise_for_status()` only
raises for 4xx/5xx — so the handler returns 200 with no `error` field,
contradicting "never a 200" for every non-2xx status. -/
theorem C6_counterexample :
    (handleFetch (FetchOutcome.response 300 (some exData))).status = 200 ∧
    (handleFetch (FetchOutcome.response 300 (some exData))).body.errorMsg = none := by
  have h : handleFetch (FetchOutcome.response 300 (some exData))
      = normalizeData exData := rfl
  rw [h, normalizeData_exData]
  exact ⟨rfl, rfl⟩

/-- C6 amended: a connection-level failure yields 500 with an `error` field;
an upstream 4xx/5xx status is surfaced as that status with an `error` field
and is never 200. -/
theorem C6_amended_transport_failures (status : Nat) (body : Option Json)
    (h4 : 400 ≤ status) (h6 : status < 600) :
    (handleFetch FetchOutcome.connError).status = 500 ∧
    (handleFetch FetchOutcome.connError).body.errorMsg = some (fetchErrorMsg 500) ∧
    (handleFetch (FetchOutcome.response status body)).status = status ∧
    (handleFetch (FetchOutcome.response status body)).body.errorMsg
      = some (fetchErrorMsg status) ∧
    (handleFetch (FetchOutcome.response status body)).status ≠ 200 := by
  have hcond : 400 ≤ status ∧ status < 600 := ⟨h4, h6⟩
  have hst : (handleFetch (FetchOutcome.response status body)).status = status := by
    simp [handleFetch, hcond]
  refine ⟨rfl, rfl, hst, by simp [handleFetch, hcond, ApiBody.errorMsg], ?_⟩
  rw [hst]
  omega

/-- C6 witness: connection error yields 500, and a 404 upstream is surfaced
as 404 with an `error` field, never 200. -/
theorem C6_witness :
    (handleFetch FetchOutcome.connError).status = 500 ∧
    (handleFetch FetchOutcome.connError).body.errorMsg = some (fetchErrorMsg 500) ∧
    (handleFetch (FetchOutcome.response 404 none)).status = 404 ∧
    (handleFetch (FetchOutcome.response 404 none)).body.errorMsg
      = some (fetchErrorMsg 404) ∧
    (handleFetch (FetchOutcome.response 404 none)).status ≠ 200 :=
  C6_amended_transport_failures 404 none (by decide) (by decide)

/-- C7: the coordinate-system parameter never causes an error — with valid
times the request proceeds to the fetch for every value — an absent or
unsupported (after uppercasing) value is silently replaced by `GSE`, and a
supported value is accepted case-insensitively and interpolated uppercased
into the upstream URL. -/
theorem C7_coordinate_system_never_errors (q : QueryParams) (fetch : FetchOutcome)
    (cs : String) (hv : validateTimes q.start_time q.end_time = none) :
    handleRequest q fetch = handleFetch fetch ∧
    resolvedCoordSystem none = "GSE" ∧
    (strUpper cs ∉ supported_systems → resolvedCoordSystem (some cs) = "GSE") ∧
    (strUpper cs ∈ supported_systems →
      strUpper (resolvedCoordSystem (some cs)) = strUpper cs) ∧
    requestUrl q
      = buildUrl (q.observatories.getD "ace,wind,goes17,goes16")
        (q.start_time.getD "") (q.end_time.getD "")
        (resolvedCoordSystem q.coordinate_system) := by
  refine ⟨?_, by decide, ?_, ?_, rfl⟩
  · simp [handleRequest, hv]
  · intro h
    simp [resolvedCoordSystem, h]
  · intro h
    simp [resolvedCoordSystem, h]

/-- C7 witness: with valid times and the unrecognized system `"xyz"` the
request proceeds using `GSE` and no error is returned. -/
theorem C7_witness :
    handleRequest ⟨none, some "20240101T000000Z", some "20240101T010000Z",
        some "xyz", none⟩ FetchOutcome.connError = handleFetch FetchOutcome.connError ∧
    resolvedCoordSystem none = "GSE" ∧
    (strUpper "xyz" ∉ supported_systems → resolvedCoordSystem (some "xyz") = "GSE") ∧
    (strUpper "xyz" ∈ supported_systems →
      strUpper (resolvedCoordSystem (some "xyz")) = strUpper "xyz") ∧
    requestUrl ⟨none, some "20240101T000000Z", some "20240101T010000Z",
        some "xyz", none⟩
      = buildUrl "ace,wind,goes17,goes16" "20240101T000000Z" "20240101T010000Z"
        (resolvedCoordSystem (some "xyz")) :=
  C7_coordinate_system_never_errors
    ⟨none, some "20240101T000000Z", some "20240101T010000Z", some "xyz", none⟩
    FetchOutcome.connError "xyz" rfl

/-- C8: every output vertex is a 3-element list whose coordinates are the
three upstream scalars at one common index of one block, each converted to a
number and divided by 1,000,000. -/
theorem C8_vertices_are_scaled_triples (data : Json) (v : List ℚ)
    (hv : v ∈ (normalizeData data).body.vertices) :
    v.length = 3 ∧
    ∃ sats block i jx jy jz x y z,
      extractSatellites data = some sats ∧ block ∈ sats ∧ i < blockMinLen block ∧
      (blockXs block)[i]? = some jx ∧ (blockYs block)[i]? = some jy ∧
      (blockZs block)[i]? = some jz ∧
      pyFloat jx = some x ∧ pyFloat jy = some y ∧ pyFloat jz = some z ∧
      v = [x / 1000000, y / 1000000, z / 1000000] := by
  cases hx : extractSatellites data with
  | none => simp [normalizeData, hx, ApiBody.vertices] at hv
  | some sats =>
    by_cases he : (processSatellites sats).1.isEmpty = true
    · simp [normalizeData, hx, he, ApiBody.vertices] at hv
    · have hv1 : v ∈ (processSatellites sats).1 := by
        simpa [normalizeData, hx, he, ApiBody.vertices] using hv
      have hv2 : v ∈ (sats.map (fun b => (processBlock b).1)).flatten := by
        rw [processSatellites_eq] at hv1
        exact hv1
      obtain ⟨piece, hpiece, hvp⟩ := List.mem_flatten.mp hv2
      obtain ⟨b, hb, rfl⟩ := List.mem_map.mp hpiece
      rw [processBlock_fst] at hvp
      obtain ⟨i, hir, hconv⟩ := List.mem_filterMap.mp hvp
      have hi : i < blockMinLen b := List.mem_range.mp hir
      have hconv2 : convertPoint (blockXs b) (blockYs b) (blockZs b) i = some v := hconv
      obtain ⟨jx, jy, jz, x, y, z, hjx, hjy, hjz, hfx, hfy, hfz, hveq⟩ :=
        convertPoint_some hconv2
      subst hveq
      exact ⟨rfl, sats, b, i, jx, jy, jz, x, y, z, rfl, hb, hi, hjx, hjy, hjz,
        hfx, hfy, hfz, rfl⟩

/-- C8 witness: the concrete vertex `[1, 1, 1]` of `exData` is a scaled
triple of upstream scalars. -/
theorem C8_witness :
    ([(1 : ℚ), 1, 1] : List ℚ).length = 3 ∧
    ∃ sats block i jx jy jz x y z,
      extractSatellites exData = some sats ∧ block ∈ sats ∧ i < blockMinLen block ∧
      (blockXs block)[i]? = some jx ∧ (blockYs block)[i]? = some jy ∧
      (blockZs block)[i]? = some jz ∧
      pyFloat jx = some x ∧ pyFloat jy = some y ∧ pyFloat jz = some z ∧
      ([(1 : ℚ), 1, 1] : List ℚ) = [x / 1000000, y / 1000000, z / 1000000] :=
  C8_vertices_are_scaled_triples exData [1, 1, 1]
    (by rw [normalizeData_exData]; exact List.mem_singleton.mpr rfl)

/-- C9: output order preserves upstream order — the vertices are the
concatenation of the per-block contributions in block order, within a block
points appear in increasing index order, and each label is the block's `Id`
value (or the sentinel `"Unknown Satellite"` when the `Id` key is absent). -/
theorem C9_upstream_order_preserved (data : Json) (sats : List Json)
    (hs : extractSatellites data = some sats) :
    (normalizeData data).body.vertices
      = (sats.map (fun b => (processBlock b).1)).flatten ∧
    (normalizeData data).body.labels
      = (sats.map (fun b => ((processBlock b).1).map (fun _ => blockId b))).flatten ∧
    (∀ b ∈ sats, (processBlock b).1
      = (List.range (blockMinLen b)).filterMap (convertAt b)) ∧
    (∀ b ∈ sats, ∀ details, blockDetails b = some details →
      blockId b = (List.lookup "Id" details).getD (Json.str "Unknown Satellite")) := by
  have hF : (processSatellites sats).1
      = (sats.map (fun b => (processBlock b).1)).flatten := by
    rw [processSatellites_eq]
  have hL : (processSatellites sats).2
      = (sats.map (fun b => ((processBlock b).1).map (fun _ => blockId b))).flatten :=
    processSatellites_snd_join sats
  refine ⟨?_, ?_, fun b _ => processBlock_fst b, ?_⟩
  · by_cases he : (processSatellites sats).1.isEmpty = true
    · have h1 : (processSatellites sats).1 = [] := List.isEmpty_iff.mp he
      rw [← hF, h1]
      simp [normalizeData, hs, he, ApiBody.vertices]
    · rw [← hF]
      simp [normalizeData, hs, he, ApiBody.vertices]
  · by_cases he : (processSatellites sats).1.isEmpty = true
    · have h1 : (processSatellites sats).1 = [] := List.isEmpty_iff.mp he
      have h2 : (processSatellites sats).2 = [] := processSatellites_snd_eq_nil h1
      rw [← hL, h2]
      simp [normalizeData, hs, he, ApiBody.labels]
    · rw [← hL]
      simp [normalizeData, hs, he, ApiBody.labels]
  · intro b _ details hd
    simp [blockId, hd]

/-- C9 witness: the concrete envelope instantiates the order and label
characterization. -/
theorem C9_witness :
    (normalizeData exData).body.vertices
      = ([exBlock].map (fun b => (processBlock b).1)).flatten ∧
    (normalizeData exData).body.labels
      = ([exBlock].map (fun b => ((processBlock b).1).map (fun _ => blockId b))).flatten ∧
    (∀ b ∈ [exBlock], (processBlock b).1
      = (List.range (blockMinLen b)).filterMap (convertAt b)) ∧
    (∀ b ∈ [exBlock], ∀ details, blockDetails b = some details →
      blockId b = (List.lookup "Id" details).getD (Json.str "Unknown Satellite")) :=
  C9_upstream_order_preserved exData [exBlock] rfl

/-- C10: the validator performs no chronological comparison — whenever both
time strings parse, the request proceeds to the upstream fetch, even when
`end_time` is chronologically before `start_time`. -/
theorem C10_no_chronological_comparison (q : QueryParams) (fetch : FetchOutcome)
    (s e : String) (hst : q.start_time = some s) (het : q.end_time = some e)
    (h1 : strptimeValid s = true) (h2 : strptimeValid e = true) :
    handleRequest q fetch = handleFetch fetch := by
  have hs0 : s ≠ "" := strptimeValid_ne_empty h1
  have he0 : e ≠ "" := strptimeValid_ne_empty h2
  simp [handleRequest, validateTimes, hst, het, pyFalsyStr, hs0, he0, h1, h2]

/-- C10 witness: an `end_time` one day before `start_time` still proceeds to
the fetch. -/
theorem C10_witness :
    handleRequest ⟨none, some "20240102T000000Z", some "20240101T000000Z",
        none, none⟩ FetchOutcome.connError = handleFetch FetchOutcome.connError :=
  C10_no_chronological_comparison
    ⟨none, some "20240102T000000Z", some "20240101T000000Z", none, none⟩
    FetchOutcome.connError "20240102T000000Z" "20240101T000000Z" rfl rfl
    (by decide) (by decide)

end NasaSat
